import Mathlib

/-!
Route guide service: a shallow embedding of `src/route-server/server.go`.

The handlers of `routeGuideServer` are embedded as total functions.

* A slice of features is a `List Feature`; a `for _, feature := range` loop is a
  structural recursion over that list.
* An inbound stream is the finite list of messages `stream.Recv` hands out,
  followed by the error value that ends it (`io.EOF` or a failure).
* An outbound stream is the list of messages handed to `stream.Send` or
  `stream.SendAndClose`, oldest first, with a script giving the error each of
  these calls returns.
* `log.Fatalf` ends the process; a handler run therefore ends either by
  returning to the RPC runtime or by terminating the process.
* `int32` values are integers; `int32` arithmetic is followed by `wrap32`.
* `calcDistance` computes in `float64` with `math.Sin`, `math.Cos`, `math.Sqrt`
  and `math.Atan2`; the handlers that call it take it as a parameter, a
  function from two points to an `int32`.
* `time.Now` is outside the embedding: the `ElapsedTime` that `RecordRoute`
  reports is a parameter.
-/

set_option autoImplicit false

namespace RouteGuide

/-! ## Data model -/

/-- Modelled from the spec: the message type `pb.Point` of the generated package
`grpc/pb`, two signed integer fields holding degrees times 1e7. -/
structure Point where
  Latitude : Int
  Longitude : Int
deriving DecidableEq

/-- Modelled from the spec: the message type `pb.Rectangle` of the generated
package `grpc/pb`, two opposite corners in no particular order. -/
structure Rectangle where
  Low : Point
  High : Point
deriving DecidableEq

/-- Modelled from the spec: the message type `pb.Feature` of the generated
package `grpc/pb`, a display name and a location. -/
structure Feature where
  Name : String
  Location : Point
deriving DecidableEq

/-- Modelled from the spec: the message type `pb.RouteSummary` of the generated
package `grpc/pb`. -/
structure RouteSummary where
  PointCount : Int
  Distance : Int
  ElapsedTime : Int
deriving DecidableEq

/-- Modelled from the spec: the message type `pb.RecommendationRequest` of the
generated package `grpc/pb`; `Mode` is the numeric value of the enum, any
`int32` can arrive. -/
structure RecommendationRequest where
  Point : Point
  Mode : Int
deriving DecidableEq

/-- Modelled from the spec: the enum constant `pb.RecommendationMode_GetFarthest`
of the generated package `grpc/pb`; the client prompt of `runForth` reads
"0 for farthest, 1 for the nearest". -/
def RecommendationMode_GetFarthest : Int := 0

/-- Modelled from the spec: the enum constant for the nearest mode, see
`RecommendationMode_GetFarthest`. -/
def RecommendationMode_GetNearest : Int := 1

/-- A Go `error` value as the handlers tell them apart: `io.EOF`, or any other
failure, carried with its text. -/
inductive GoError where
  | EOF
  | failure (msg : String)
deriving DecidableEq

/-- The method `Error()` of a Go `error`: its text. -/
def GoError.Error : GoError → String
  | GoError.EOF => "EOF"
  | GoError.failure msg => msg

/-- How a handler run ends: it returns `err` to the RPC runtime (the call ends,
the process lives on), or `log.Fatalf` prints `msg` and exits the process. -/
inductive Outcome where
  | returned (err : Option GoError)
  | fatal (msg : String)
deriving DecidableEq

/-- What a handler run leaves behind: the messages it handed to `Send` or
`SendAndClose`, in call order (a call that fails is the last one), and how it
ended. -/
structure Run (μ : Type) where
  sent : List μ
  outcome : Outcome

/-- Conversion of an integer to `int32` as Go's wrapping arithmetic does it:
reduction modulo `2^32` into `[-2^31, 2^31)`. -/
def wrap32 (x : Int) : Int := (x + 2147483648) % 4294967296 - 2147483648

/-! ## GetFeature -/

/-- Modelled from the spec: `proto.Equal` on two points, exact field-wise
equality of latitude and longitude. -/
def protoEqual (a b : Point) : Bool :=
  decide (a.Latitude = b.Latitude) && decide (a.Longitude = b.Longitude)

/-- `routeGuideServer.GetFeature`: the pair (feature, error) it returns. -/
def GetFeature : List Feature → Point → Option Feature × Option GoError
  | [], _ => (none, none)
  | feature :: rest, point =>
    if protoEqual feature.Location point then (some feature, none)
    else GetFeature rest point

/-! ## inRange and ListFeatures -/

/-- `inRange`. The source converts every coordinate to `float64` first; an
`int32` converts exactly and `math.Min`, `math.Max` and the comparisons do not
round, so the computation is the same on the integers. `inRangeFloat64` writes
the conversions out. -/
def inRange (point : Point) (rect : Rectangle) : Bool :=
  let left := min rect.Low.Longitude rect.High.Longitude
  let right := max rect.Low.Longitude rect.High.Longitude
  let top := max rect.Low.Latitude rect.High.Latitude
  let bottom := min rect.Low.Latitude rect.High.Latitude
  if decide (point.Longitude ≥ left) &&
      decide (point.Longitude ≤ right) &&
      decide (point.Latitude ≥ bottom) &&
      decide (point.Latitude ≤ top) then
    true
  else
    false

/-- The loop of `routeGuideServer.ListFeatures`. `send k` is the error of the
`Send` call made when `k` messages went out before it (`none`: it succeeds);
`sent` holds the messages handed to `Send` so far. -/
def ListFeatures.loop (rectangle : Rectangle) (send : Nat → Option GoError) :
    List Feature → List Feature → Run Feature
  | [], sent => ⟨sent, Outcome.returned none⟩
  | feature :: rest, sent =>
    if inRange feature.Location rectangle then
      match send sent.length with
      | some err => ⟨sent ++ [feature], Outcome.fatal ("stream send err :" ++ err.Error)⟩
      | none => ListFeatures.loop rectangle send rest (sent ++ [feature])
    else ListFeatures.loop rectangle send rest sent

/-- `routeGuideServer.ListFeatures`. -/
def ListFeatures (features : List Feature) (rectangle : Rectangle)
    (send : Nat → Option GoError) : Run Feature :=
  ListFeatures.loop rectangle send features []

/-! ## RecordRoute -/

/-- The local variables `pointCount`, `distance` and `prevPoint` of
`RecordRoute`. -/
structure RouteState where
  pointCount : Int
  distance : Int
  prevPoint : Option Point
deriving DecidableEq

/-- One pass through the body of the `for` loop of `RecordRoute` after `Recv`
returned `point`. -/
def RecordRoute.step (calcDistance : Point → Point → Int) (st : RouteState)
    (point : Point) : RouteState :=
  let pointCount := wrap32 (st.pointCount + 1)
  let distance :=
    match st.prevPoint with
    | some prevPoint => wrap32 (st.distance + calcDistance prevPoint point)
    | none => st.distance
  { pointCount := pointCount, distance := distance, prevPoint := some point }

/-- The `for` loop of `RecordRoute` on an inbound stream that hands out the
listed points and then `last`. `elapsed` stands for
`int32(endTime.Sub(startTime).Seconds())`, `sendAndClose` for the error
`stream.SendAndClose` returns. -/
def RecordRoute.loop (calcDistance : Point → Point → Int) (elapsed : Int)
    (sendAndClose : RouteSummary → Option GoError) (last : GoError) :
    List Point → RouteState → Run RouteSummary
  | [], st =>
    match last with
    | GoError.EOF =>
      let summary : RouteSummary :=
        { PointCount := st.pointCount, Distance := st.distance, ElapsedTime := elapsed }
      ⟨[summary], Outcome.returned (sendAndClose summary)⟩
    | GoError.failure msg => ⟨[], Outcome.fatal ("server rec data fail err:" ++ msg)⟩
  | point :: rest, st =>
    RecordRoute.loop calcDistance elapsed sendAndClose last rest
      (RecordRoute.step calcDistance st point)

/-- `routeGuideServer.RecordRoute`. -/
def RecordRoute (calcDistance : Point → Point → Int) (elapsed : Int)
    (sendAndClose : RouteSummary → Option GoError) (points : List Point)
    (last : GoError) : Run RouteSummary :=
  RecordRoute.loop calcDistance elapsed sendAndClose last points
    { pointCount := 0, distance := 0, prevPoint := none }

/-! ## recommendOnce and Recommend -/

/-- The local variables of `recommendOnce`. -/
structure RecState where
  nearest : Option Feature
  farthest : Option Feature
  nearestDistance : Int
  farthestDistance : Int
deriving DecidableEq

/-- The body of the `for` loop of `recommendOnce`. -/
def recommendOnce.step (calcDistance : Point → Point → Int)
    (request : RecommendationRequest) (st : RecState) (feature : Feature) : RecState :=
  let distance := calcDistance feature.Location request.Point
  let st1 : RecState :=
    if st.nearest.isNone || decide (distance < st.nearestDistance) then
      { st with nearestDistance := distance, nearest := some feature }
    else st
  if st1.farthest.isNone || decide (distance > st1.farthestDistance) then
    { st1 with farthestDistance := distance, farthest := some feature }
  else st1

/-- The `for` loop of `recommendOnce`. -/
def recommendOnce.loop (calcDistance : Point → Point → Int)
    (request : RecommendationRequest) : List Feature → RecState → RecState
  | [], st => st
  | feature :: rest, st =>
    recommendOnce.loop calcDistance request rest
      (recommendOnce.step calcDistance request st feature)

/-- `routeGuideServer.recommendOnce`: the pair (feature, error) it returns. -/
def recommendOnce (calcDistance : Point → Point → Int) (features : List Feature)
    (request : RecommendationRequest) : Option Feature × Option GoError :=
  let st := recommendOnce.loop calcDistance request features
    { nearest := none, farthest := none, nearestDistance := 0, farthestDistance := 0 }
  if request.Mode = RecommendationMode_GetFarthest then (st.farthest, none)
  else (st.nearest, none)

/-- The `for` loop of `Recommend` on an inbound stream that hands out the listed
requests and then `last`. `send k` is the error of the `Send` call made when `k`
messages went out before it; a message is a possibly nil `*pb.Feature`. -/
def Recommend.loop (calcDistance : Point → Point → Int) (features : List Feature)
    (send : Nat → Option GoError) (last : GoError) :
    List RecommendationRequest → List (Option Feature) → Run (Option Feature)
  | [], sent =>
    match last with
    | GoError.EOF => ⟨sent, Outcome.returned none⟩
    | GoError.failure msg => ⟨sent, Outcome.returned (some (GoError.failure msg))⟩
  | request :: rest, sent =>
    match recommendOnce calcDistance features request with
    | (_, some err) => ⟨sent, Outcome.returned (some err)⟩
    | (recommended, none) =>
      match send sent.length with
      | some err => ⟨sent ++ [recommended], Outcome.returned (some err)⟩
      | none => Recommend.loop calcDistance features send last rest (sent ++ [recommended])

/-- `routeGuideServer.Recommend`. -/
def Recommend (calcDistance : Point → Point → Int) (features : List Feature)
    (send : Nat → Option GoError) (requests : List RecommendationRequest)
    (last : GoError) : Run (Option Feature) :=
  Recommend.loop calcDistance features send last requests []

/-! ## The catalog of `NewServer` and sample inputs -/

/-- The features of `NewServer`. -/
def NewServer : List Feature :=
  [ { Name := "上海交通大学闵行校区 上海市闵行区东川路800号",
      Location := { Latitude := 310235000, Longitude := 121437403 } },
    { Name := "复旦大学 上海市杨浦区五角场邯郸路220号",
      Location := { Latitude := 312978870, Longitude := 121503457 } },
    { Name := "华东理工大学 上海市徐汇区梅陇路130号",
      Location := { Latitude := 311416130, Longitude := 121424904 } } ]

/-- The rectangle `runSecond` of the client asks for. -/
def sampleRectangle : Rectangle :=
  { Low := { Latitude := 313374060, Longitude := 121358540 },
    High := { Latitude := 311034130, Longitude := 121598790 } }

/-- A request for the feature nearest to the first location of `NewServer`. -/
def sampleRequest : RecommendationRequest :=
  { Point := { Latitude := 310235000, Longitude := 121437403 },
    Mode := RecommendationMode_GetNearest }

/-- A stand-in for `calcDistance` at concrete inputs: the sum of the absolute
differences of the coordinates. -/
def sampleDistance (a b : Point) : Int :=
  (a.Latitude - b.Latitude).natAbs + (a.Longitude - b.Longitude).natAbs

/-- A route of 109 points that alternates between `(0, 0)` and the point half
way round the equator, longitude 180 degrees. -/
def antipodalRoute : List Point :=
  (List.range 109).map fun i =>
    { Latitude := 0, Longitude := if i % 2 = 0 then 0 else 1800000000 }

/-- A stand-in for `calcDistance` on `antipodalRoute`: 20015086 metres, the
integer part of pi times the earth radius 6371000, between two different
points and 0 between equal ones. -/
def halfTurn (a b : Point) : Int := if a = b then 0 else 20015086

/-- The sum of `calcDistance` over the consecutive pairs of a sequence of points,
as an exact integer: the total the spec asks `RecordRoute` to report. -/
def routeLength (calcDistance : Point → Point → Int) : List Point → Int
  | [] => 0
  | [_] => 0
  | p :: q :: rest => calcDistance p q + routeLength calcDistance (q :: rest)

/-- The state of the nearest search of `recommendOnce` after the features `seen`:
nothing is chosen when `seen` is empty, otherwise the chosen feature splits
`seen` so that every feature before it is strictly farther and none after it is
nearer. -/
def FirstNearest (d : Feature → Int) (seen : List Feature) (best : Option Feature)
    (bestDistance : Int) : Prop :=
  (seen = [] ∧ best = none) ∨
    ∃ (before : List Feature) (f : Feature) (after : List Feature),
      seen = before ++ f :: after ∧ best = some f ∧ bestDistance = d f ∧
      (∀ g ∈ before, d f < d g) ∧ (∀ g ∈ after, d f ≤ d g)

/-- The state of the farthest search of `recommendOnce` after the features
`seen`, the mirror image of `FirstNearest`. -/
def FirstFarthest (d : Feature → Int) (seen : List Feature) (best : Option Feature)
    (bestDistance : Int) : Prop :=
  (seen = [] ∧ best = none) ∨
    ∃ (before : List Feature) (f : Feature) (after : List Feature),
      seen = before ++ f :: after ∧ best = some f ∧ bestDistance = d f ∧
      (∀ g ∈ before, d g < d f) ∧ (∀ g ∈ after, d g ≤ d f)

/-- Field-wise equality of two points, as a proposition. -/
def sameCoordinates (a b : Point) : Prop :=
  a.Latitude = b.Latitude ∧ a.Longitude = b.Longitude

/-! ## Conversion to float64 -/

/-- The number of low-order bits of `n` that do not fit in the 53-bit
significand of a `float64`: how often `n` is halved before it is below `2^53`.
The first argument bounds the number of halvings; `n` itself is always
enough. -/
def excessBits : Nat → Nat → Nat
  | 0, _ => 0
  | fuel + 1, n => if n < 9007199254740992 then 0 else excessBits fuel (n / 2) + 1

/-- The value of the Go conversion `float64(x)` of an integer `x`: `x` rounded
to 53 significant bits, to the nearest such value, ties to the even
significand. -/
def float64OfInt (x : Int) : Int :=
  let n := x.natAbs
  let e := excessBits n n
  let q := n / 2 ^ e
  let r := n % 2 ^ e
  let roundUp := decide (2 ^ e < 2 * r) || (decide (2 * r = 2 ^ e) && decide (q % 2 = 1))
  x.sign * (((if roundUp then q + 1 else q) * 2 ^ e : Nat) : Int)

/-- `inRange` with the conversions to `float64` written out as the source has
them; `math.Min`, `math.Max` and the comparisons are exact on the converted
values. On `int32` coordinates it is `inRange`. -/
def inRangeFloat64 (point : Point) (rect : Rectangle) : Bool :=
  let left := min (float64OfInt rect.Low.Longitude) (float64OfInt rect.High.Longitude)
  let right := max (float64OfInt rect.Low.Longitude) (float64OfInt rect.High.Longitude)
  let top := max (float64OfInt rect.Low.Latitude) (float64OfInt rect.High.Latitude)
  let bottom := min (float64OfInt rect.Low.Latitude) (float64OfInt rect.High.Latitude)
  if decide (float64OfInt point.Longitude ≥ left) &&
      decide (float64OfInt point.Longitude ≤ right) &&
      decide (float64OfInt point.Latitude ≥ bottom) &&
      decide (float64OfInt point.Latitude ≤ top) then
    true
  else
    false

/-- The values of the Go type `int32`. -/
def isInt32 (x : Int) : Prop := -2147483648 ≤ x ∧ x < 2147483648

instance (x : Int) : Decidable (isInt32 x) := by
  unfold isInt32
  infer_instance

/-- A point whose two coordinates are `int32` values. -/
def int32Point (p : Point) : Prop := isInt32 p.Latitude ∧ isInt32 p.Longitude

instance (p : Point) : Decidable (int32Point p) := by
  unfold int32Point
  infer_instance

/-! ## Further sample inputs -/

/-- A catalog with two features at the same location. -/
def twinCatalog : List Feature :=
  [ { Name := "A", Location := { Latitude := 0, Longitude := 0 } },
    { Name := "B", Location := { Latitude := 0, Longitude := 0 } } ]

/-- An outbound stream on which every `Send` fails, as after the client has
gone away. -/
def brokenStream : Nat → Option GoError :=
  fun _ => some (GoError.failure "transport is closing")

/-- An outbound stream on which the first `Send` succeeds and the second one
fails. -/
def breakingStream : Nat → Option GoError :=
  fun k => if k = 1 then some (GoError.failure "transport is closing") else none

theorem protoEqual_iff (a b : Point) : protoEqual a b = true ↔ sameCoordinates a b := by
  simp [protoEqual, sameCoordinates]

/-- C1. `GetFeature` never returns an error, and its feature is either absent,
and then no feature of the catalog has its location field-wise equal to the
query point, or the feature at some index `i` of the catalog whose location is
field-wise equal to the query point while no feature at an earlier index has
such a location. -/
theorem GetFeature_first_match (features : List Feature) (point : Point) :
    (GetFeature features point).2 = none ∧
    (((GetFeature features point).1 = none ∧
        ∀ f ∈ features, ¬ sameCoordinates f.Location point) ∨
      ∃ (i : Nat) (f : Feature), features[i]? = some f ∧
        (GetFeature features point).1 = some f ∧
        sameCoordinates f.Location point ∧
        ∀ (j : Nat) (g : Feature), j < i → features[j]? = some g →
          ¬ sameCoordinates g.Location point) := by
  induction features with
  | nil => simp [GetFeature]
  | cons feature rest ih =>
    by_cases h : protoEqual feature.Location point = true
    · refine ⟨by simp [GetFeature, h], Or.inr ⟨0, feature, by simp, by simp [GetFeature, h],
        (protoEqual_iff _ _).1 h, ?_⟩⟩
      intro j g hj
      exact absurd hj (Nat.not_lt_zero j)
    · have hne : ¬ sameCoordinates feature.Location point := fun hs =>
        h ((protoEqual_iff _ _).2 hs)
      have hstep : GetFeature (feature :: rest) point = GetFeature rest point := by
        simp [GetFeature, h]
      rw [hstep]
      refine ⟨ih.1, ?_⟩
      rcases ih.2 with ⟨hnone, hall⟩ | ⟨i, f, hi, hres, hsame, hbefore⟩
      · left
        refine ⟨hnone, ?_⟩
        intro f hf
        rcases List.mem_cons.1 hf with rfl | hf
        · exact hne
        · exact hall f hf
      · right
        refine ⟨i + 1, f, by simpa using hi, hres, hsame, ?_⟩
        intro j g hj hg
        cases j with
        | zero =>
          have : feature = g := by simpa using hg
          exact this ▸ hne
        | succ j =>
          exact hbefore j g (Nat.lt_of_succ_lt_succ hj) (by simpa using hg)

theorem ListFeatures_loop_sent (rectangle : Rectangle) (send : Nat → Option GoError)
    (features sent : List Feature)
    (hsend : ∀ k, k < (features.filter fun f => inRange f.Location rectangle).length →
      send (sent.length + k) = none) :
    ListFeatures.loop rectangle send features sent =
      ⟨sent ++ features.filter (fun f => inRange f.Location rectangle),
        Outcome.returned none⟩ := by
  induction features generalizing sent with
  | nil => simp [ListFeatures.loop]
  | cons feature rest ih =>
    by_cases h : inRange feature.Location rectangle = true
    · have h0 : send sent.length = none := by
        have := hsend 0 (by simp [List.filter, h])
        simpa using this
      have hrest : ∀ k, k < (rest.filter fun f => inRange f.Location rectangle).length →
          send ((sent ++ [feature]).length + k) = none := by
        intro k hk
        have := hsend (k + 1) (by simpa [List.filter, h] using hk)
        simpa [Nat.add_assoc, Nat.add_comm 1 k] using this
      simp [ListFeatures.loop, h, h0, ih (sent ++ [feature]) hrest, List.filter]
    · have hrest : ∀ k, k < (rest.filter fun f => inRange f.Location rectangle).length →
          send (sent.length + k) = none := by
        intro k hk
        exact hsend k (by simpa [List.filter, h] using hk)
      simp [ListFeatures.loop, h, ih sent hrest, List.filter]

/-- C2. When none of the `Send` calls that `ListFeatures` makes fails, the
messages it sends are the catalog filtered by `inRange` on the location, in
catalog order, and it returns no error; so when no feature is in range it
sends nothing. -/
theorem ListFeatures_sends_filter (features : List Feature) (rectangle : Rectangle)
    (send : Nat → Option GoError)
    (hsend : ∀ k, k < (features.filter fun f => inRange f.Location rectangle).length →
      send k = none) :
    (ListFeatures features rectangle send).sent =
        features.filter (fun f => inRange f.Location rectangle) ∧
      (ListFeatures features rectangle send).outcome = Outcome.returned none ∧
      ((∀ f ∈ features, inRange f.Location rectangle = false) →
        (ListFeatures features rectangle send).sent = []) := by
  have h := ListFeatures_loop_sent rectangle send features [] (by simpa using hsend)
  have hs : (ListFeatures features rectangle send).sent =
      features.filter (fun f => inRange f.Location rectangle) := by
    simp [ListFeatures, h]
  refine ⟨hs, by simp [ListFeatures, h], ?_⟩
  intro hnone
  rw [hs]
  exact List.filter_eq_nil_iff.2 (fun f hf => by simp [hnone f hf])

/-- C2 at the catalog of `NewServer` and the rectangle of the client: the
second and the third feature are sent. -/
theorem ListFeatures_sends_filter_witness :
    (∀ k, k < (NewServer.filter fun f => inRange f.Location sampleRectangle).length →
      (fun _ => none : Nat → Option GoError) k = none) ∧
    (ListFeatures NewServer sampleRectangle (fun _ => none)).sent =
      NewServer.filter (fun f => inRange f.Location sampleRectangle) ∧
    (NewServer.filter fun f => inRange f.Location sampleRectangle).map (fun f => f.Location) =
      [⟨312978870, 121503457⟩, ⟨311416130, 121424904⟩] :=
  ⟨fun _ _ => rfl,
    (ListFeatures_sends_filter NewServer sampleRectangle (fun _ => none) (fun _ _ => rfl)).1,
    by decide⟩

/-- C7. `inRange` gives the same answer when the two corners of the rectangle
change places. -/
theorem inRange_swap_corners (p a b : Point) :
    inRange p { Low := a, High := b } = inRange p { Low := b, High := a } := by
  simp only [inRange, min_comm a.Longitude, max_comm a.Longitude, min_comm a.Latitude,
    max_comm a.Latitude]

/-! ### recommendOnce -/

theorem recommendOnce_step_fields (calcDistance : Point → Point → Int)
    (request : RecommendationRequest) (st : RecState) (x : Feature) :
    ((recommendOnce.step calcDistance request st x).nearest =
        if (st.nearest.isNone ||
          decide (calcDistance x.Location request.Point < st.nearestDistance)) = true
        then some x else st.nearest) ∧
    ((recommendOnce.step calcDistance request st x).nearestDistance =
        if (st.nearest.isNone ||
          decide (calcDistance x.Location request.Point < st.nearestDistance)) = true
        then calcDistance x.Location request.Point else st.nearestDistance) ∧
    ((recommendOnce.step calcDistance request st x).farthest =
        if (st.farthest.isNone ||
          decide (calcDistance x.Location request.Point > st.farthestDistance)) = true
        then some x else st.farthest) ∧
    ((recommendOnce.step calcDistance request st x).farthestDistance =
        if (st.farthest.isNone ||
          decide (calcDistance x.Location request.Point > st.farthestDistance)) = true
        then calcDistance x.Location request.Point else st.farthestDistance) := by
  unfold recommendOnce.step
  dsimp only
  refine ⟨?_, ?_, ?_, ?_⟩ <;> split_ifs <;> rfl

theorem recommendOnce_step_nearest (calcDistance : Point → Point → Int)
    (request : RecommendationRequest) (st : RecState) (x : Feature)
    (seen : List Feature)
    (h : FirstNearest (fun g => calcDistance g.Location request.Point) seen
      st.nearest st.nearestDistance) :
    FirstNearest (fun g => calcDistance g.Location request.Point) (seen ++ [x])
      (recommendOnce.step calcDistance request st x).nearest
      (recommendOnce.step calcDistance request st x).nearestDistance := by
  obtain ⟨hn, hd, -, -⟩ := recommendOnce_step_fields calcDistance request st x
  rw [hn, hd]
  by_cases hc : (st.nearest.isNone ||
      decide (calcDistance x.Location request.Point < st.nearestDistance)) = true
  · rw [if_pos hc, if_pos hc]
    right
    refine ⟨seen, x, [], by simp, rfl, rfl, ?_, by simp⟩
    rcases h with ⟨hnil, _⟩ | ⟨before, f, after, hseen, hbest, hbd, hb, ha⟩
    · simp [hnil]
    · have hlt : calcDistance x.Location request.Point <
          calcDistance f.Location request.Point := by
        simpa [hbest, hbd] using hc
      intro g hg
      rw [hseen] at hg
      rcases List.mem_append.1 hg with hg | hg
      · have := hb g hg
        simp only at this ⊢
        omega
      · rcases List.mem_cons.1 hg with rfl | hg
        · exact hlt
        · have := ha g hg
          simp only at this ⊢
          omega
  · rw [if_neg hc, if_neg hc]
    rcases h with ⟨_, hnone⟩ | ⟨before, f, after, hseen, hbest, hbd, hb, ha⟩
    · simp [hnone] at hc
    · have hge : calcDistance f.Location request.Point ≤
          calcDistance x.Location request.Point := by
        simpa [hbest, hbd] using hc
      right
      refine ⟨before, f, after ++ [x], by simp [hseen], hbest, hbd, hb, ?_⟩
      intro g hg
      rcases List.mem_append.1 hg with hg | hg
      · exact ha g hg
      · have : g = x := by simpa using hg
        rw [this]
        exact hge

theorem recommendOnce_step_farthest (calcDistance : Point → Point → Int)
    (request : RecommendationRequest) (st : RecState) (x : Feature)
    (seen : List Feature)
    (h : FirstFarthest (fun g => calcDistance g.Location request.Point) seen
      st.farthest st.farthestDistance) :
    FirstFarthest (fun g => calcDistance g.Location request.Point) (seen ++ [x])
      (recommendOnce.step calcDistance request st x).farthest
      (recommendOnce.step calcDistance request st x).farthestDistance := by
  obtain ⟨-, -, hn, hd⟩ := recommendOnce_step_fields calcDistance request st x
  rw [hn, hd]
  by_cases hc : (st.farthest.isNone ||
      decide (calcDistance x.Location request.Point > st.farthestDistance)) = true
  · rw [if_pos hc, if_pos hc]
    right
    refine ⟨seen, x, [], by simp, rfl, rfl, ?_, by simp⟩
    rcases h with ⟨hnil, _⟩ | ⟨before, f, after, hseen, hbest, hbd, hb, ha⟩
    · simp [hnil]
    · have hlt : calcDistance f.Location request.Point <
          calcDistance x.Location request.Point := by
        simpa [hbest, hbd] using hc
      intro g hg
      rw [hseen] at hg
      rcases List.mem_append.1 hg with hg | hg
      · have := hb g hg
        simp only at this ⊢
        omega
      · rcases List.mem_cons.1 hg with rfl | hg
        · exact hlt
        · have := ha g hg
          simp only at this ⊢
          omega
  · rw [if_neg hc, if_neg hc]
    rcases h with ⟨_, hnone⟩ | ⟨before, f, after, hseen, hbest, hbd, hb, ha⟩
    · simp [hnone] at hc
    · have hge : calcDistance x.Location request.Point ≤
          calcDistance f.Location request.Point := by
        simpa [hbest, hbd] using hc
      right
      refine ⟨before, f, after ++ [x], by simp [hseen], hbest, hbd, hb, ?_⟩
      intro g hg
      rcases List.mem_append.1 hg with hg | hg
      · exact ha g hg
      · have : g = x := by simpa using hg
        rw [this]
        exact hge

theorem recommendOnce_loop_invariant (calcDistance : Point → Point → Int)
    (request : RecommendationRequest) (rest seen : List Feature) (st : RecState)
    (hn : FirstNearest (fun g => calcDistance g.Location request.Point) seen
      st.nearest st.nearestDistance)
    (hf : FirstFarthest (fun g => calcDistance g.Location request.Point) seen
      st.farthest st.farthestDistance) :
    FirstNearest (fun g => calcDistance g.Location request.Point) (seen ++ rest)
        (recommendOnce.loop calcDistance request rest st).nearest
        (recommendOnce.loop calcDistance request rest st).nearestDistance ∧
      FirstFarthest (fun g => calcDistance g.Location request.Point) (seen ++ rest)
        (recommendOnce.loop calcDistance request rest st).farthest
        (recommendOnce.loop calcDistance request rest st).farthestDistance := by
  induction rest generalizing seen st with
  | nil => simpa [recommendOnce.loop] using And.intro hn hf
  | cons x rest ih =>
    have h := ih (seen ++ [x]) (recommendOnce.step calcDistance request st x)
      (recommendOnce_step_nearest calcDistance request st x seen hn)
      (recommendOnce_step_farthest calcDistance request st x seen hf)
    simpa [recommendOnce.loop] using h

theorem recommendOnce_invariant (calcDistance : Point → Point → Int)
    (features : List Feature) (request : RecommendationRequest) :
    (recommendOnce calcDistance features request).2 = none ∧
    (request.Mode = RecommendationMode_GetFarthest →
      ∃ dist, FirstFarthest (fun g => calcDistance g.Location request.Point) features
        (recommendOnce calcDistance features request).1 dist) ∧
    (request.Mode ≠ RecommendationMode_GetFarthest →
      ∃ dist, FirstNearest (fun g => calcDistance g.Location request.Point) features
        (recommendOnce calcDistance features request).1 dist) := by
  have h := recommendOnce_loop_invariant calcDistance request features []
    { nearest := none, farthest := none, nearestDistance := 0, farthestDistance := 0 }
    (Or.inl ⟨rfl, rfl⟩) (Or.inl ⟨rfl, rfl⟩)
  simp only [List.nil_append] at h
  refine ⟨?_, ?_, ?_⟩
  · unfold recommendOnce
    dsimp only
    split_ifs <;> rfl
  · intro hm
    have : (recommendOnce calcDistance features request).1 =
        (recommendOnce.loop calcDistance request features
          { nearest := none, farthest := none, nearestDistance := 0,
            farthestDistance := 0 }).farthest := by
      simp [recommendOnce, hm]
    rw [this]
    exact ⟨_, h.2⟩
  · intro hm
    have : (recommendOnce calcDistance features request).1 =
        (recommendOnce.loop calcDistance request features
          { nearest := none, farthest := none, nearestDistance := 0,
            farthestDistance := 0 }).nearest := by
      simp [recommendOnce, hm]
    rw [this]
    exact ⟨_, h.1⟩

/-- C3. On a non-empty catalog `recommendOnce` returns a feature of the catalog;
in the mode `GetFarthest` no feature of the catalog is farther from the request
point than it, in every other mode none is nearer. -/
theorem recommendOnce_extremal (calcDistance : Point → Point → Int)
    (features : List Feature) (request : RecommendationRequest)
    (hne : features ≠ []) :
    ∃ f, (recommendOnce calcDistance features request).1 = some f ∧ f ∈ features ∧
      (request.Mode = RecommendationMode_GetFarthest →
        ∀ g ∈ features, calcDistance g.Location request.Point ≤
          calcDistance f.Location request.Point) ∧
      (request.Mode ≠ RecommendationMode_GetFarthest →
        ∀ g ∈ features, calcDistance f.Location request.Point ≤
          calcDistance g.Location request.Point) := by
  obtain ⟨-, hfar, hnear⟩ := recommendOnce_invariant calcDistance features request
  by_cases hm : request.Mode = RecommendationMode_GetFarthest
  · obtain ⟨dist, h⟩ := hfar hm
    rcases h with ⟨hnil, _⟩ | ⟨before, f, after, hseen, hbest, -, hb, ha⟩
    · exact absurd hnil hne
    · refine ⟨f, hbest, by simp [hseen], ?_, fun h => absurd hm h⟩
      intro _ g hg
      rw [hseen] at hg
      rcases List.mem_append.1 hg with hg | hg
      · exact le_of_lt (hb g hg)
      · rcases List.mem_cons.1 hg with rfl | hg
        · exact le_refl _
        · exact ha g hg
  · obtain ⟨dist, h⟩ := hnear hm
    rcases h with ⟨hnil, _⟩ | ⟨before, f, after, hseen, hbest, -, hb, ha⟩
    · exact absurd hnil hne
    · refine ⟨f, hbest, by simp [hseen], fun h => absurd h hm, ?_⟩
      intro _ g hg
      rw [hseen] at hg
      rcases List.mem_append.1 hg with hg | hg
      · exact le_of_lt (hb g hg)
      · rcases List.mem_cons.1 hg with rfl | hg
        · exact le_refl _
        · exact ha g hg

/-- C3 at the catalog of `NewServer`, which is not empty. -/
theorem recommendOnce_extremal_witness :
    NewServer ≠ [] ∧
    ∃ f, (recommendOnce sampleDistance NewServer sampleRequest).1 = some f ∧
      f ∈ NewServer ∧
      (sampleRequest.Mode = RecommendationMode_GetFarthest →
        ∀ g ∈ NewServer, sampleDistance g.Location sampleRequest.Point ≤
          sampleDistance f.Location sampleRequest.Point) ∧
      (sampleRequest.Mode ≠ RecommendationMode_GetFarthest →
        ∀ g ∈ NewServer, sampleDistance f.Location sampleRequest.Point ≤
          sampleDistance g.Location sampleRequest.Point) :=
  ⟨List.cons_ne_nil _ _,
    recommendOnce_extremal sampleDistance NewServer sampleRequest (List.cons_ne_nil _ _)⟩

/-- C4. On the empty catalog `recommendOnce` returns no feature; otherwise the
feature it returns splits the catalog into the entries before it and those
after it so that, in the mode `GetFarthest`, every entry before it is strictly
nearer to the request point and no entry after it is farther, and in every
other mode every entry before it is strictly farther and no entry after it is
nearer. So no catalog entry at the same distance as the returned one has a
lower index: of two extremal entries at equal distance the later one is never
returned. -/
theorem recommendOnce_first_extremal (calcDistance : Point → Point → Int)
    (features : List Feature) (request : RecommendationRequest) :
    (features = [] ∧ (recommendOnce calcDistance features request).1 = none) ∨
    ∃ (before : List Feature) (f : Feature) (after : List Feature),
      features = before ++ f :: after ∧
      (recommendOnce calcDistance features request).1 = some f ∧
      (request.Mode = RecommendationMode_GetFarthest →
        (∀ g ∈ before, calcDistance g.Location request.Point <
          calcDistance f.Location request.Point) ∧
        (∀ g ∈ after, calcDistance g.Location request.Point ≤
          calcDistance f.Location request.Point)) ∧
      (request.Mode ≠ RecommendationMode_GetFarthest →
        (∀ g ∈ before, calcDistance f.Location request.Point <
          calcDistance g.Location request.Point) ∧
        (∀ g ∈ after, calcDistance f.Location request.Point ≤
          calcDistance g.Location request.Point)) ∧
      (∀ (i : Nat) (g : Feature), features[i]? = some g →
        calcDistance g.Location request.Point = calcDistance f.Location request.Point →
        before.length ≤ i) := by
  obtain ⟨-, hfar, hnear⟩ := recommendOnce_invariant calcDistance features request
  by_cases hm : request.Mode = RecommendationMode_GetFarthest
  · obtain ⟨dist, h⟩ := hfar hm
    rcases h with ⟨hnil, hnone⟩ | ⟨before, f, after, hseen, hbest, -, hb, ha⟩
    · exact Or.inl ⟨hnil, hnone⟩
    · refine Or.inr ⟨before, f, after, hseen, hbest, fun _ => ⟨hb, ha⟩,
        fun h => absurd hm h, ?_⟩
      intro i g hi hd
      by_contra hlt
      have hlt : i < before.length := Nat.lt_of_not_le hlt
      rw [hseen, List.getElem?_append_left hlt] at hi
      have := hb g (List.getElem?_mem hi)
      simp only at this
      omega
  · obtain ⟨dist, h⟩ := hnear hm
    rcases h with ⟨hnil, hnone⟩ | ⟨before, f, after, hseen, hbest, -, hb, ha⟩
    · exact Or.inl ⟨hnil, hnone⟩
    · refine Or.inr ⟨before, f, after, hseen, hbest, fun h => absurd h hm,
        fun _ => ⟨hb, ha⟩, ?_⟩
      intro i g hi hd
      by_contra hlt
      have hlt : i < before.length := Nat.lt_of_not_le hlt
      rw [hseen, List.getElem?_append_left hlt] at hi
      have := hb g (List.getElem?_mem hi)
      simp only at this
      omega

/-! ### RecordRoute -/

theorem wrap32_add_left (a b : Int) : wrap32 (wrap32 a + b) = wrap32 (a + b) := by
  unfold wrap32
  omega

theorem wrap32_of_int32 (a : Int) (hlo : -2147483648 ≤ a) (hhi : a < 2147483648) :
    wrap32 a = a := by
  unfold wrap32
  omega

theorem RecordRoute_loop_fold (calcDistance : Point → Point → Int) (elapsed : Int)
    (sendAndClose : RouteSummary → Option GoError) (last : GoError)
    (points : List Point) (st : RouteState) :
    RecordRoute.loop calcDistance elapsed sendAndClose last points st =
      RecordRoute.loop calcDistance elapsed sendAndClose last []
        (points.foldl (RecordRoute.step calcDistance) st) := by
  induction points generalizing st with
  | nil => rfl
  | cons p rest ih => simp only [RecordRoute.loop, List.foldl_cons, ih]

theorem RecordRoute_fold_totals (calcDistance : Point → Point → Int)
    (points : List Point) (st : RouteState)
    (hc : wrap32 st.pointCount = st.pointCount) (hd : wrap32 st.distance = st.distance) :
    (points.foldl (RecordRoute.step calcDistance) st).pointCount =
        wrap32 (st.pointCount + points.length) ∧
      (points.foldl (RecordRoute.step calcDistance) st).distance =
        wrap32 (st.distance + routeLength calcDistance (st.prevPoint.toList ++ points)) := by
  induction points generalizing st with
  | nil =>
    refine ⟨by simpa using hc.symm, ?_⟩
    cases hp : st.prevPoint <;> simpa [routeLength] using hd.symm
  | cons p rest ih =>
    have hc1 : wrap32 (RecordRoute.step calcDistance st p).pointCount =
        (RecordRoute.step calcDistance st p).pointCount := by
      simp only [RecordRoute.step, wrap32]
      omega
    have hd1 : wrap32 (RecordRoute.step calcDistance st p).distance =
        (RecordRoute.step calcDistance st p).distance := by
      cases hp : st.prevPoint with
      | none => simpa [RecordRoute.step, hp] using hd
      | some q =>
        simp only [RecordRoute.step, hp, wrap32]
        omega
    obtain ⟨h1, h2⟩ := ih (RecordRoute.step calcDistance st p) hc1 hd1
    rw [List.foldl_cons, h1, h2]
    constructor
    · simp only [RecordRoute.step, List.length_cons, Nat.cast_add, Nat.cast_one]
      rw [wrap32_add_left]
      congr 1
      omega
    · cases hp : st.prevPoint with
      | none => simp [RecordRoute.step, hp]
      | some q =>
        simp only [RecordRoute.step, hp, Option.toList, List.singleton_append, routeLength]
        rw [wrap32_add_left]
        congr 1
        omega

theorem RecordRoute_sent_eof (calcDistance : Point → Point → Int) (elapsed : Int)
    (sendAndClose : RouteSummary → Option GoError) (points : List Point) :
    (RecordRoute calcDistance elapsed sendAndClose points GoError.EOF).sent =
      [{ PointCount := wrap32 points.length,
         Distance := wrap32 (routeLength calcDistance points),
         ElapsedTime := elapsed }] := by
  obtain ⟨h1, h2⟩ := RecordRoute_fold_totals calcDistance points
    { pointCount := 0, distance := 0, prevPoint := none } (by decide) (by decide)
  unfold RecordRoute
  rw [RecordRoute_loop_fold]
  simp only [RecordRoute.loop, h1, h2]
  simp

/-- C5 as stated fails. On an inbound stream of `2^31` points `(0, 0)` followed
by end-of-input the `PointCount` sent is not `2^31`, whatever `calcDistance`
computes: the `int32` counter has wrapped. The `int32` total wraps as well: on
`antipodalRoute`, with every hop counted as half the circumference of the
earth, the hops add up to 2161629288 and the `Distance` sent is -2133338008. -/
theorem RecordRoute_totals_wrap :
    (¬ ∃ calcDistance : Point → Point → Int,
      (RecordRoute calcDistance 0 (fun _ => none)
        (List.replicate 2147483648 { Latitude := 0, Longitude := 0 }) GoError.EOF).sent.map
          (fun summary => summary.PointCount) =
        [((List.replicate 2147483648 ({ Latitude := 0, Longitude := 0 } : Point)).length : Int)]) ∧
    (routeLength halfTurn antipodalRoute = 2161629288 ∧
      (RecordRoute halfTurn 0 (fun _ => none) antipodalRoute GoError.EOF).sent.map
          (fun summary => summary.Distance) = [-2133338008]) := by
  constructor
  · rintro ⟨calcDistance, h⟩
    rw [RecordRoute_sent_eof, List.length_replicate] at h
    have h2 : wrap32 ((2147483648 : Nat) : Int) = ((2147483648 : Nat) : Int) :=
      (List.cons.inj h).1
    unfold wrap32 at h2
    omega
  · have hsum : routeLength halfTurn antipodalRoute = 2161629288 := by
      set_option maxRecDepth 100000 in decide
    refine ⟨hsum, ?_⟩
    rw [RecordRoute_sent_eof, hsum]
    decide

/-- C5, amended. On an inbound stream that hands out the points `p1..pn` and
then end-of-input, `RecordRoute` sends exactly one summary; its `PointCount` is
`n` and its `Distance` is the sum of `calcDistance` over the consecutive pairs,
each reduced to `int32`, so they are `n` and the sum themselves when these fit
in an `int32`. On an inbound stream that ends in a failure it sends nothing. -/
theorem RecordRoute_summary (calcDistance : Point → Point → Int) (elapsed : Int)
    (sendAndClose : RouteSummary → Option GoError) (points : List Point) :
    (RecordRoute calcDistance elapsed sendAndClose points GoError.EOF).sent =
        [{ PointCount := wrap32 points.length,
           Distance := wrap32 (routeLength calcDistance points),
           ElapsedTime := elapsed }] ∧
      (∀ msg, (RecordRoute calcDistance elapsed sendAndClose points
        (GoError.failure msg)).sent = []) ∧
      ((points.length : Int) < 2147483648 → wrap32 points.length = points.length) ∧
      (-2147483648 ≤ routeLength calcDistance points →
        routeLength calcDistance points < 2147483648 →
        wrap32 (routeLength calcDistance points) = routeLength calcDistance points) := by
  refine ⟨RecordRoute_sent_eof calcDistance elapsed sendAndClose points, ?_, ?_, ?_⟩
  · intro msg
    unfold RecordRoute
    rw [RecordRoute_loop_fold]
    rfl
  · intro h
    exact wrap32_of_int32 _ (by omega) h
  · intro hlo hhi
    exact wrap32_of_int32 _ hlo hhi

/-- C6, what the code does: when `Recv` fails with an error other than `io.EOF`,
`RecordRoute` sends no summary and does not return at all; `log.Fatalf` ends
the process. -/
theorem RecordRoute_recv_failure_fatal (calcDistance : Point → Point → Int)
    (elapsed : Int) (sendAndClose : RouteSummary → Option GoError)
    (points : List Point) (msg : String) :
    (RecordRoute calcDistance elapsed sendAndClose points (GoError.failure msg)).sent = [] ∧
      (RecordRoute calcDistance elapsed sendAndClose points (GoError.failure msg)).outcome =
        Outcome.fatal ("server rec data fail err:" ++ msg) ∧
      ∀ err, (RecordRoute calcDistance elapsed sendAndClose points
        (GoError.failure msg)).outcome ≠ Outcome.returned err := by
  have h : RecordRoute calcDistance elapsed sendAndClose points (GoError.failure msg) =
      ⟨[], Outcome.fatal ("server rec data fail err:" ++ msg)⟩ := by
    unfold RecordRoute
    rw [RecordRoute_loop_fold]
    rfl
  rw [h]
  exact ⟨rfl, rfl, fun err => by simp⟩

/-! ### Recommend -/

theorem recommendOnce_no_error (calcDistance : Point → Point → Int)
    (features : List Feature) (request : RecommendationRequest) :
    recommendOnce calcDistance features request =
      ((recommendOnce calcDistance features request).1, none) := by
  unfold recommendOnce
  dsimp only
  split_ifs <;> rfl

theorem Recommend_loop_sent (calcDistance : Point → Point → Int)
    (features : List Feature) (send : Nat → Option GoError)
    (requests : List RecommendationRequest) (sent : List (Option Feature))
    (hsend : ∀ k, k < requests.length → send (sent.length + k) = none) :
    Recommend.loop calcDistance features send GoError.EOF requests sent =
      ⟨sent ++ requests.map (fun r => (recommendOnce calcDistance features r).1),
        Outcome.returned none⟩ := by
  induction requests generalizing sent with
  | nil => simp [Recommend.loop]
  | cons request rest ih =>
    have h0 : send sent.length = none := by
      have := hsend 0 (by simp)
      simpa using this
    have hrest : ∀ k, k < rest.length →
        send ((sent ++ [(recommendOnce calcDistance features request).1]).length + k) =
          none := by
      intro k hk
      have := hsend (k + 1) (by simpa using hk)
      simpa [Nat.add_assoc, Nat.add_comm 1 k] using this
    unfold Recommend.loop
    rw [recommendOnce_no_error]
    simp only [h0]
    rw [ih _ hrest]
    simp

/-- C10. When the inbound stream hands out the requests `r1..rn` and then
end-of-input, and none of the `Send` calls fails, `Recommend` sends `n`
messages, the `i`-th being what `recommendOnce` returns on `r_i`, and returns
no error. -/
theorem Recommend_answers_in_order (calcDistance : Point → Point → Int)
    (features : List Feature) (send : Nat → Option GoError)
    (requests : List RecommendationRequest)
    (hsend : ∀ k, k < requests.length → send k = none) :
    (Recommend calcDistance features send requests GoError.EOF).sent =
        requests.map (fun r => (recommendOnce calcDistance features r).1) ∧
      (Recommend calcDistance features send requests GoError.EOF).sent.length =
        requests.length ∧
      (Recommend calcDistance features send requests GoError.EOF).outcome =
        Outcome.returned none := by
  have h := Recommend_loop_sent calcDistance features send requests []
    (by simpa using hsend)
  unfold Recommend
  rw [h]
  simp

/-- C10 at the catalog of `NewServer` and two requests, nearest then farthest. -/
theorem Recommend_answers_in_order_witness :
    (∀ k, k < [sampleRequest, { sampleRequest with Mode := RecommendationMode_GetFarthest }].length →
      (fun _ => none : Nat → Option GoError) k = none) ∧
    (Recommend sampleDistance NewServer (fun _ => none)
      [sampleRequest, { sampleRequest with Mode := RecommendationMode_GetFarthest }]
      GoError.EOF).sent =
      [sampleRequest, { sampleRequest with Mode := RecommendationMode_GetFarthest }].map
        (fun r => (recommendOnce sampleDistance NewServer r).1) ∧
    ([sampleRequest, { sampleRequest with Mode := RecommendationMode_GetFarthest }].map
        (fun r => ((recommendOnce sampleDistance NewServer r).1).map (fun f => f.Location))) =
      [some ⟨310235000, 121437403⟩, some ⟨312978870, 121503457⟩] :=
  ⟨fun _ _ => rfl,
    (Recommend_answers_in_order sampleDistance NewServer (fun _ => none)
      [sampleRequest, { sampleRequest with Mode := RecommendationMode_GetFarthest }]
      (fun _ _ => rfl)).1,
    by decide⟩

/-! ### Empty catalog, short routes -/

/-- C11. On the empty catalog `recommendOnce` returns no feature and no error,
whatever the request; it never returns an error, and it returns no feature
only when the catalog is empty. -/
theorem recommendOnce_absent_iff_empty (calcDistance : Point → Point → Int)
    (features : List Feature) (request : RecommendationRequest) :
    recommendOnce calcDistance [] request = (none, none) ∧
      (recommendOnce calcDistance features request).2 = none ∧
      ((recommendOnce calcDistance features request).1 = none ↔ features = []) := by
  obtain ⟨herr, hfar, hnear⟩ := recommendOnce_invariant calcDistance features request
  have hempty : recommendOnce calcDistance [] request = (none, none) := by
    unfold recommendOnce
    dsimp only [recommendOnce.loop]
    split_ifs <;> rfl
  refine ⟨hempty, herr, ?_, ?_⟩
  · intro hnone
    by_cases hm : request.Mode = RecommendationMode_GetFarthest
    · obtain ⟨dist, h⟩ := hfar hm
      rcases h with ⟨hnil, _⟩ | ⟨before, f, after, -, hbest, -, -, -⟩
      · exact hnil
      · rw [hnone] at hbest
        exact absurd hbest (by simp)
    · obtain ⟨dist, h⟩ := hnear hm
      rcases h with ⟨hnil, _⟩ | ⟨before, f, after, -, hbest, -, -, -⟩
      · exact hnil
      · rw [hnone] at hbest
        exact absurd hbest (by simp)
  · intro hnil
    rw [hnil, hempty]

/-- C13. On an inbound stream that ends at once `RecordRoute` sends the summary
with `PointCount` 0 and `Distance` 0, and on a stream of one point the summary
with `PointCount` 1 and `Distance` 0. -/
theorem RecordRoute_short_streams (calcDistance : Point → Point → Int) (elapsed : Int)
    (sendAndClose : RouteSummary → Option GoError) :
    (RecordRoute calcDistance elapsed sendAndClose [] GoError.EOF).sent =
        [{ PointCount := 0, Distance := 0, ElapsedTime := elapsed }] ∧
      ∀ p : Point, (RecordRoute calcDistance elapsed sendAndClose [p] GoError.EOF).sent =
        [{ PointCount := 1, Distance := 0, ElapsedTime := elapsed }] := by
  refine ⟨rfl, ?_⟩
  intro p
  have h1 : wrap32 1 = 1 := by decide
  simp [RecordRoute, RecordRoute.loop, RecordRoute.step, h1]

/-! ### inRange on int32 coordinates -/

theorem excessBits_small (n : Nat) (h : n < 9007199254740992) : excessBits n n = 0 := by
  cases n with
  | zero => rfl
  | succ k => simp [excessBits, h]

theorem float64OfInt_exact (x : Int) (h : x.natAbs < 9007199254740992) :
    float64OfInt x = x := by
  unfold float64OfInt
  simp only [excessBits_small _ h, pow_zero, Nat.div_one, Nat.mod_one, Nat.mul_zero,
    Nat.mul_one]
  simpa using Int.sign_mul_natAbs x

theorem float64OfInt_int32 (x : Int) (h : isInt32 x) : float64OfInt x = x := by
  apply float64OfInt_exact
  unfold isInt32 at h
  omega

theorem inRangeFloat64_eq_inRange (p : Point) (rect : Rectangle) (hp : int32Point p)
    (hlow : int32Point rect.Low) (hhigh : int32Point rect.High) :
    inRangeFloat64 p rect = inRange p rect := by
  unfold inRangeFloat64 inRange
  rw [float64OfInt_int32 _ hp.1, float64OfInt_int32 _ hp.2,
    float64OfInt_int32 _ hlow.1, float64OfInt_int32 _ hlow.2,
    float64OfInt_int32 _ hhigh.1, float64OfInt_int32 _ hhigh.2]

theorem inRange_eq_true_iff (p : Point) (rect : Rectangle) :
    inRange p rect = true ↔
      (min rect.Low.Longitude rect.High.Longitude ≤ p.Longitude ∧
        p.Longitude ≤ max rect.Low.Longitude rect.High.Longitude) ∧
      (min rect.Low.Latitude rect.High.Latitude ≤ p.Latitude ∧
        p.Latitude ≤ max rect.Low.Latitude rect.High.Latitude) := by
  unfold inRange
  simp only [ge_iff_le, Bool.and_eq_true, decide_eq_true_eq, ite_eq_left_iff,
    Bool.not_eq_true, Bool.false_eq_true, imp_false, Bool.not_eq_false, and_assoc,
    Classical.not_not]

/-- C12. For a point and a rectangle with `int32` coordinates, `inRange` as the
source computes it on `float64` values is `inRange` on the integers, and it is
true exactly when the longitude of the point lies between the smaller and the
larger longitude of the two corners and its latitude between the smaller and
the larger latitude, both ends included; so the four corners of the rectangle
are in range, and so is every point on one of its edges. -/
theorem inRange_iff_integer_bounds (p : Point) (rect : Rectangle) (hp : int32Point p)
    (hlow : int32Point rect.Low) (hhigh : int32Point rect.High) :
    inRangeFloat64 p rect = inRange p rect ∧
    (inRangeFloat64 p rect = true ↔
      (min rect.Low.Longitude rect.High.Longitude ≤ p.Longitude ∧
        p.Longitude ≤ max rect.Low.Longitude rect.High.Longitude) ∧
      (min rect.Low.Latitude rect.High.Latitude ≤ p.Latitude ∧
        p.Latitude ≤ max rect.Low.Latitude rect.High.Latitude)) ∧
    (inRangeFloat64 rect.Low rect = true ∧ inRangeFloat64 rect.High rect = true ∧
      inRangeFloat64 { Latitude := rect.Low.Latitude, Longitude := rect.High.Longitude }
        rect = true ∧
      inRangeFloat64 { Latitude := rect.High.Latitude, Longitude := rect.Low.Longitude }
        rect = true) ∧
    ((p.Longitude = rect.Low.Longitude ∨ p.Longitude = rect.High.Longitude) →
      min rect.Low.Latitude rect.High.Latitude ≤ p.Latitude →
      p.Latitude ≤ max rect.Low.Latitude rect.High.Latitude →
      inRangeFloat64 p rect = true) ∧
    ((p.Latitude = rect.Low.Latitude ∨ p.Latitude = rect.High.Latitude) →
      min rect.Low.Longitude rect.High.Longitude ≤ p.Longitude →
      p.Longitude ≤ max rect.Low.Longitude rect.High.Longitude →
      inRangeFloat64 p rect = true) := by
  have heq := inRangeFloat64_eq_inRange p rect hp hlow hhigh
  refine ⟨heq, ?_, ⟨?_, ?_, ?_, ?_⟩, ?_, ?_⟩
  · rw [heq]
    exact inRange_eq_true_iff p rect
  · rw [inRangeFloat64_eq_inRange _ rect hlow hlow hhigh, inRange_eq_true_iff]
    exact ⟨⟨min_le_left _ _, le_max_left _ _⟩, ⟨min_le_left _ _, le_max_left _ _⟩⟩
  · rw [inRangeFloat64_eq_inRange _ rect hhigh hlow hhigh, inRange_eq_true_iff]
    exact ⟨⟨min_le_right _ _, le_max_right _ _⟩, ⟨min_le_right _ _, le_max_right _ _⟩⟩
  · rw [inRangeFloat64_eq_inRange
      { Latitude := rect.Low.Latitude, Longitude := rect.High.Longitude } rect
      ⟨hlow.1, hhigh.2⟩ hlow hhigh, inRange_eq_true_iff]
    exact ⟨⟨min_le_right _ _, le_max_right _ _⟩, ⟨min_le_left _ _, le_max_left _ _⟩⟩
  · rw [inRangeFloat64_eq_inRange
      { Latitude := rect.High.Latitude, Longitude := rect.Low.Longitude } rect
      ⟨hhigh.1, hlow.2⟩ hlow hhigh, inRange_eq_true_iff]
    exact ⟨⟨min_le_left _ _, le_max_left _ _⟩, ⟨min_le_right _ _, le_max_right _ _⟩⟩
  · intro hlng h1 h2
    rw [heq, inRange_eq_true_iff]
    refine ⟨?_, h1, h2⟩
    rcases hlng with h | h <;> rw [h]
    · exact ⟨min_le_left _ _, le_max_left _ _⟩
    · exact ⟨min_le_right _ _, le_max_right _ _⟩
  · intro hlat h1 h2
    rw [heq, inRange_eq_true_iff]
    refine ⟨⟨h1, h2⟩, ?_⟩
    rcases hlat with h | h <;> rw [h]
    · exact ⟨min_le_left _ _, le_max_left _ _⟩
    · exact ⟨min_le_right _ _, le_max_right _ _⟩

/-- C12 at the location of the second feature of `NewServer` and the rectangle
of the client, all of them `int32` values. -/
theorem inRange_iff_integer_bounds_witness :
    (int32Point { Latitude := 312978870, Longitude := 121503457 } ∧
      int32Point sampleRectangle.Low ∧ int32Point sampleRectangle.High) ∧
    inRangeFloat64 { Latitude := 312978870, Longitude := 121503457 } sampleRectangle =
      inRange { Latitude := 312978870, Longitude := 121503457 } sampleRectangle ∧
    inRange { Latitude := 312978870, Longitude := 121503457 } sampleRectangle = true :=
  ⟨⟨by decide, by decide, by decide⟩,
    (inRange_iff_integer_bounds { Latitude := 312978870, Longitude := 121503457 }
      sampleRectangle (by decide) (by decide) (by decide)).1,
    by decide⟩

/-! ### ListFeatures on a failing stream -/

theorem ListFeatures_loop_failure (rectangle : Rectangle) (send : Nat → Option GoError)
    (features sent : List Feature) (k : Nat) (err : GoError)
    (hk : k < (features.filter fun f => inRange f.Location rectangle).length)
    (hfirst : ∀ j, j < k → send (sent.length + j) = none)
    (hfail : send (sent.length + k) = some err) :
    ListFeatures.loop rectangle send features sent =
      ⟨sent ++ (features.filter fun f => inRange f.Location rectangle).take (k + 1),
        Outcome.fatal ("stream send err :" ++ err.Error)⟩ := by
  induction features generalizing sent k with
  | nil => simp at hk
  | cons feature rest ih =>
    by_cases h : inRange feature.Location rectangle = true
    · cases k with
      | zero =>
        have h0 : send sent.length = some err := by simpa using hfail
        simp [ListFeatures.loop, h, h0, List.filter]
      | succ k =>
        have h0 : send sent.length = none := by
          have := hfirst 0 (Nat.succ_pos k)
          simpa using this
        have hk1 : k < (rest.filter fun f => inRange f.Location rectangle).length := by
          simpa [List.filter, h] using hk
        have hfirst1 : ∀ j, j < k → send ((sent ++ [feature]).length + j) = none := by
          intro j hj
          have := hfirst (j + 1) (Nat.succ_lt_succ hj)
          simpa [Nat.add_assoc, Nat.add_comm 1 j] using this
        have hfail1 : send ((sent ++ [feature]).length + k) = some err := by
          simpa [Nat.add_assoc, Nat.add_comm 1 k] using hfail
        simp [ListFeatures.loop, h, h0, ih (sent ++ [feature]) k hk1 hfirst1 hfail1,
          List.filter]
    · have hk1 : k < (rest.filter fun f => inRange f.Location rectangle).length := by
        simpa [List.filter, h] using hk
      simp [ListFeatures.loop, h, ih sent k hk1 hfirst hfail, List.filter]

/-- C14, what the code does: when the `Send` of the matching feature number `k`
is the first to fail, `ListFeatures` has handed the matching features up to that
one to the stream and does not return at all, neither the error nor nil;
`log.Fatalf` ends the process. -/
theorem ListFeatures_send_failure_fatal (features : List Feature) (rectangle : Rectangle)
    (send : Nat → Option GoError) (k : Nat) (err : GoError)
    (hk : k < (features.filter fun f => inRange f.Location rectangle).length)
    (hfirst : ∀ j, j < k → send j = none) (hfail : send k = some err) :
    (ListFeatures features rectangle send).outcome =
        Outcome.fatal ("stream send err :" ++ err.Error) ∧
      (∀ e, (ListFeatures features rectangle send).outcome ≠ Outcome.returned e) ∧
      (ListFeatures features rectangle send).sent =
        (features.filter fun f => inRange f.Location rectangle).take (k + 1) := by
  have h := ListFeatures_loop_failure rectangle send features [] k err hk
    (by simpa using hfirst) (by simpa using hfail)
  unfold ListFeatures
  rw [h]
  exact ⟨rfl, fun e => by simp, by simp⟩

/-- C14 at the catalog of `NewServer` and the rectangle of the client, on a
stream whose second `Send` fails: two features are handed to the stream and the
process ends. -/
theorem ListFeatures_send_failure_fatal_witness :
    (1 < (NewServer.filter fun f => inRange f.Location sampleRectangle).length ∧
      (∀ j, j < 1 → breakingStream j = none) ∧
      breakingStream 1 = some (GoError.failure "transport is closing")) ∧
    (ListFeatures NewServer sampleRectangle breakingStream).outcome =
      Outcome.fatal "stream send err :transport is closing" ∧
    ((ListFeatures NewServer sampleRectangle breakingStream).sent.map fun f => f.Location) =
      [⟨312978870, 121503457⟩, ⟨311416130, 121424904⟩] :=
  ⟨⟨by decide, by decide, by decide⟩,
    (ListFeatures_send_failure_fatal NewServer sampleRectangle breakingStream 1
      (GoError.failure "transport is closing") (by decide) (by decide) (by decide)).1,
    by decide⟩

/-! ### The int32 totals of RecordRoute -/

theorem routeLength_nonneg (calcDistance : Point → Point → Int)
    (hnonneg : ∀ a b, 0 ≤ calcDistance a b) (points : List Point) :
    0 ≤ routeLength calcDistance points := by
  induction points with
  | nil => simp [routeLength]
  | cons p rest ih =>
    cases rest with
    | nil => simp [routeLength]
    | cons q rest =>
      have h1 := hnonneg p q
      simp only [routeLength]
      omega

theorem inRange_degenerate (x p : Point) :
    inRange x { Low := p, High := p } = decide (x = p) := by
  cases x with
  | mk xlat xlng =>
    cases p with
    | mk plat plng =>
      by_cases h : xlat = plat ∧ xlng = plng
      · obtain ⟨h1, h2⟩ := h
        subst h1
        subst h2
        simp [inRange]
      · have hne : ¬ (Point.mk xlat xlng = Point.mk plat plng) := by
          intro heq
          exact h ⟨congrArg Point.Latitude heq, congrArg Point.Longitude heq⟩
        have hfalse : ¬ (plng ≤ xlng ∧ xlng ≤ plng ∧ plat ≤ xlat ∧ xlat ≤ plat) := by
          intro hc
          apply h
          omega
        simp only [inRange, min_self, max_self, ge_iff_le, decide_eq_false hne]
        simpa [and_assoc] using hfalse

theorem protoEqual_eq_decide (x p : Point) : protoEqual x p = decide (x = p) := by
  cases x with
  | mk xlat xlng =>
    cases p with
    | mk plat plng => simp [protoEqual]

theorem GetFeature_eq_head (features : List Feature) (p : Point) :
    (GetFeature features p).1 =
      (features.filter fun f => decide (f.Location = p)).head? := by
  induction features with
  | nil => rfl
  | cons feature rest ih =>
    by_cases h : feature.Location = p
    · simp [GetFeature, protoEqual_eq_decide, List.filter, h]
    · simp [GetFeature, protoEqual_eq_decide, List.filter, h, ih]

theorem filter_inRange_degenerate (features : List Feature) (p : Point) :
    (features.filter fun f => inRange f.Location { Low := p, High := p }) =
      features.filter fun f => decide (f.Location = p) := by
  congr 1
  funext f
  exact inRange_degenerate f.Location p

/-- C16 as stated fails. On `twinCatalog`, whose two features are both at
`(0, 0)`, with the rectangle low = high = `(0, 0)` and a stream whose `Send`
fails, `ListFeatures` hands only the first feature to the stream and the run
ends there, so what it sends is not the list of the catalog features located
at `(0, 0)`. -/
theorem ListFeatures_degenerate_brokenStream :
    ((ListFeatures twinCatalog
        { Low := { Latitude := 0, Longitude := 0 }, High := { Latitude := 0, Longitude := 0 } }
        brokenStream).sent.map fun f => f.Name) = ["A"] ∧
    ((twinCatalog.filter fun f =>
        decide (f.Location = { Latitude := 0, Longitude := 0 })).map fun f => f.Name) =
      ["A", "B"] ∧
    (ListFeatures twinCatalog
        { Low := { Latitude := 0, Longitude := 0 }, High := { Latitude := 0, Longitude := 0 } }
        brokenStream).sent ≠
      twinCatalog.filter fun f => decide (f.Location = { Latitude := 0, Longitude := 0 }) := by
  refine ⟨by decide, by decide, ?_⟩
  intro h
  have hlen := congrArg List.length h
  revert hlen
  decide

/-- C16, amended. When none of the `Send` calls fails, `ListFeatures` with the
rectangle low = high = `p` sends the catalog features whose location is `p`, in
catalog order, and returns no error; so it sends nothing exactly when
`GetFeature` finds no feature at `p`, and otherwise the first feature it sends
is the one `GetFeature` returns. -/
theorem ListFeatures_degenerate_rectangle (features : List Feature) (p : Point)
    (send : Nat → Option GoError)
    (hsend : ∀ k, k < (features.filter fun f => decide (f.Location = p)).length →
      send k = none) :
    (ListFeatures features { Low := p, High := p } send).sent =
        (features.filter fun f => decide (f.Location = p)) ∧
      (ListFeatures features { Low := p, High := p } send).outcome =
        Outcome.returned none ∧
      ((ListFeatures features { Low := p, High := p } send).sent = [] ↔
        (GetFeature features p).1 = none) ∧
      (ListFeatures features { Low := p, High := p } send).sent.head? =
        (GetFeature features p).1 := by
  have hfilter := filter_inRange_degenerate features p
  have h := ListFeatures_loop_sent { Low := p, High := p } send features []
    (by
      intro k hk
      rw [hfilter] at hk
      simpa using hsend k hk)
  have hs : (ListFeatures features { Low := p, High := p } send).sent =
      (features.filter fun f => decide (f.Location = p)) := by
    unfold ListFeatures
    rw [h, hfilter]
    simp
  refine ⟨hs, ?_, ?_, ?_⟩
  · unfold ListFeatures
    rw [h]
  · rw [hs, GetFeature_eq_head]
    cases (features.filter fun f => decide (f.Location = p)) <;> simp
  · rw [hs, GetFeature_eq_head]

/-- C16 at the catalog of `NewServer` and the location of its third feature, on
a stream whose `Send` calls succeed. -/
theorem ListFeatures_degenerate_rectangle_witness :
    (∀ k, k < (NewServer.filter fun f =>
        decide (f.Location = { Latitude := 311416130, Longitude := 121424904 })).length →
      (fun _ => none : Nat → Option GoError) k = none) ∧
    (ListFeatures NewServer
        { Low := { Latitude := 311416130, Longitude := 121424904 },
          High := { Latitude := 311416130, Longitude := 121424904 } }
        (fun _ => none)).sent.head? =
      (GetFeature NewServer { Latitude := 311416130, Longitude := 121424904 }).1 ∧
    ((GetFeature NewServer { Latitude := 311416130, Longitude := 121424904 }).1.map
        fun f => f.Location) = some { Latitude := 311416130, Longitude := 121424904 } :=
  ⟨fun _ _ => rfl,
    (ListFeatures_degenerate_rectangle NewServer
      { Latitude := 311416130, Longitude := 121424904 } (fun _ => none)
      (fun _ _ => rfl)).2.2.2,
    by decide⟩

end RouteGuide
